import Mathlib

/-!
Verification of the resource-thread manager (components/net/resource_thread.rs).

The Rust code is shallowly embedded: the manager's dispatch loop becomes a step
function over an explicit system state, IPC sends become events (a send to a
disconnected peer fails, and a Rust `.unwrap()` of such a failure becomes an
`Except.error` marking a process abort), and the file system becomes an explicit
association of file names to contents.  External collaborators that live outside
the embedded sources (hyper header parsing, cookie validation, the CookieStorage
and HstsList collections, the MIME classifier, JSON encoding/decoding) are taken
as parameters gathered in an `Env` structure, or are modelled from the spec where
so marked.
-/

namespace Servo

abbrev Chan := Nat

abbrev ServoUrl := String

abbrev Cookie := String

abbrev RawCookie := String

abbrev ResourceId := Nat

abbrev NetworkError := String

abbrev RequestInit := Nat

abbrev LoadContext := Nat

inductive CookieSource
  | HTTP
  | NonHTTP
deriving DecidableEq, Repr

/-- Modelled from the spec: `HstsList` (hsts.rs is an external collaborator, not
among the embedded sources); "set of hosts requiring upgraded secure transport". -/
abbrev HstsList := List String

/-- `HstsList::new()`: the empty list, used for the private group. -/
def HstsList.new : HstsList := []

/-- `AuthCacheEntry` from resource_thread.rs. -/
structure AuthCacheEntry where
  user_name : String
  password : String
deriving DecidableEq, Repr

/-- `AuthCache` from resource_thread.rs (a HashMap is modelled as an association list). -/
structure AuthCache where
  version : Nat
  entries : List (String × AuthCacheEntry)
deriving DecidableEq, Repr

/-- `AuthCache::new()`: version 1, empty entries. -/
def AuthCache.new : AuthCache := ⟨1, []⟩

/-- Modelled from the spec: `CookieStorage` (cookie_storage.rs is an external
collaborator, not among the embedded sources); "opaque collection exposing
insert/update and query by URL, bounded with a fixed capacity, eviction policy
delegated to the collaborator". -/
structure CookieStorage where
  capacity : Nat
  cookies : List Cookie
deriving DecidableEq, Repr

/-- `CookieStorage::new(max)` : empty jar with the given capacity. -/
def CookieStorage.new (max_cookies : Nat) : CookieStorage := ⟨max_cookies, []⟩

/-- Modelled from the spec: insertion into the jar ("insert/update"; eviction is
the collaborator's business and is not re-specified). -/
def CookieStorage.push (jar : CookieStorage) (c : Cookie) (_source : CookieSource) :
    CookieStorage :=
  { jar with cookies := jar.cookies ++ [c] }

/-- Modelled from the spec: "query by URL" — the cookies of the jar matching the
URL and source, with the match predicate supplied by the collaborator. -/
def CookieStorage.cookies_for_url (cookieMatch : Cookie → ServoUrl → CookieSource → Bool)
    (jar : CookieStorage) (url : ServoUrl) (source : CookieSource) : List Cookie :=
  jar.cookies.filter (fun c => cookieMatch c url source)

/-- The observable condition of `directory/filename` when `read_json_from_file`
runs: missing, failing to open, opening but failing to read (I/O error or
non-UTF-8 content), or readable with the given content. -/
inductive FileReadState
  | absent
  | openError
  | readError
  | content (s : String)
deriving DecidableEq, Repr

/-- The distinct `panic!`/`unwrap` sites of the embedded code: each aborts the
manager process. -/
inductive PanicReason
  | fileRead
  | fileCreate
  | fileWrite
  | sendFail
  | mimeParse
deriving DecidableEq, Repr

/-- Non-fatal `warn!` log lines emitted by the persistence layer. -/
inductive Warning
  | warnOpen
  | warnDecode
deriving DecidableEq, Repr

/-- `read_json_from_file(data, config_dir, filename)`:
open failure → warn and keep `data`; read failure → `panic!`;
decode failure → warn and keep `data`; otherwise replace `data`. -/
def read_json_from_file {T : Type} (decode : String → Option T)
    (file : FileReadState) (data : T) : Except PanicReason (T × List Warning) :=
  match file with
  | .absent => .ok (data, [.warnOpen])
  | .openError => .ok (data, [.warnOpen])
  | .readError => .error .fileRead
  | .content s =>
    match decode s with
    | some d => .ok (d, [])
    | none => .ok (data, [.warnDecode])

/-- Replace (or create) the file `name` in the modelled directory. -/
def setFile (fs : List (String × String)) (name content : String) :
    List (String × String) :=
  (name, content) :: fs.filter (fun p => p.1 != name)

/-- `write_json_to_file(data, config_dir, filename)`: `encoded` is the result of
`json::encode` (an `Err` returns silently); `File::create` failure → `panic!`;
`write_all` failure → `panic!`; otherwise the file holds the encoded text. -/
def write_json_to_file (encoded : Option String) (createOk writeOk : Bool)
    (fs : List (String × String)) (name : String) :
    Except PanicReason (List (String × String)) :=
  match encoded with
  | none => .ok fs
  | some s =>
    if createOk then
      if writeOk then .ok (setFile fs name s) else .error .fileWrite
    else .error .fileCreate

/-- The external collaborators of resource_thread.rs, taken as parameters:
IPC connectivity, hyper's `SetCookie` header parsing, cookie validation
(`cookie::Cookie::new_wrapped`), the cookie match predicate, the HSTS preload
list, the observable file system and JSON codecs, file-creation/write success,
the sniffing preference, and the MIME classifier. -/
structure Env where
  connected : Chan → Bool
  parse_header : String → Option (List RawCookie)
  new_wrapped : RawCookie → ServoUrl → CookieSource → Option Cookie
  cookieMatch : Cookie → ServoUrl → CookieSource → Bool
  preload : HstsList
  fileState : String → FileReadState
  decodeAuth : String → Option AuthCache
  decodeHsts : String → Option HstsList
  decodeJar : String → Option CookieStorage
  encodeAuth : AuthCache → String
  encodeHsts : HstsList → String
  encodeJar : CookieStorage → String
  createOk : String → Bool
  writeOk : String → Bool
  prefSniff : Bool
  classify : LoadContext → Bool → Bool → Option (String × String) → List Nat → String × String
  fromContentType : String → Bool
  parseSubLevel : String → Option String

/-- Response metadata: the content type is a (top-level, sub-level) MIME pair,
headers are raw (name, values) lines, the status an optional code. -/
structure Metadata where
  content_type : Option (String × String)
  headers : Option (List (String × List String))
  status : Option Nat
deriving DecidableEq, Repr

/-- Modelled from the spec: `Metadata::default(url)` (net_traits is an external
collaborator) — no content type, no headers, an OK status. -/
def Metadata.mkDefault (_url : ServoUrl) : Metadata :=
  { content_type := none, headers := none, status := some 200 }

/-- ASCII lowercasing, for hyper's case-insensitive header lookup. -/
def asciiLower (s : String) : String := String.map Char.toLower s

/-- hyper's `Headers::get_raw(name)`: the raw values stored under the header
`name`, compared case-insensitively. -/
def get_raw (hs : List (String × List String)) (name : String) : Option (List String) :=
  (hs.find? (fun p => asciiLower p.1 == asciiLower name)).map (fun p => p.2)

/-- `ProgressSender::Channel`: the progress channel handed back to the loader. -/
structure ProgressSender where
  chan : Chan
deriving DecidableEq, Repr

/-- `ProgressMsg::Done`: terminal message; `some err` is `Done(Err(err))`. -/
inductive ProgressMsg
  | Done (err : Option NetworkError)
deriving DecidableEq, Repr

/-- The sends performed by the response-sender functions. -/
inductive SendEvt
  | LoadResponseSent (consumer : Chan) (metadata : Metadata) (progress_port : Chan)
  | ProgressSent (chan : Chan) (msg : ProgressMsg)
deriving DecidableEq, Repr

/-- `start_sending_opt(start_chan, metadata)`: create a progress channel (with
the fresh id `fresh`), send the `LoadResponse`; a failed send yields the error
marker (`none` models Rust's `Err(())`). -/
def start_sending_opt (env : Env) (fresh : Chan) (start_chan : Chan)
    (metadata : Metadata) : Option ProgressSender × List SendEvt :=
  if env.connected start_chan then
    (some ⟨fresh⟩, [.LoadResponseSent start_chan metadata fresh])
  else (none, [])

/-- `send_error(url, err, start_chan)`: default metadata with `status = None`;
if `start_sending_opt` succeeds the terminal `Done(Err(err))` is sent with
`.unwrap()` — a failed progress send aborts. -/
def send_error (env : Env) (fresh : Chan) (url : ServoUrl) (err : NetworkError)
    (start_chan : Chan) : Except PanicReason (List SendEvt) :=
  let metadata : Metadata := { Metadata.mkDefault url with status := none }
  match start_sending_opt env fresh start_chan metadata with
  | (some p, evs) =>
    if env.connected p.chan then
      .ok (evs ++ [.ProgressSent p.chan (.Done (some err))])
    else .error .sendFail
  | (none, evs) => .ok evs

/-- The `check_for_apache_bug` flag: from the last raw `content-type` header
value, else `Off`. -/
def computeApacheFlag (env : Env) (metadata : Metadata) : Bool :=
  match metadata.headers with
  | some hs =>
    match (get_raw hs "content-type").bind List.getLast? with
    | some ct => env.fromContentType ct
    | none => false
  | none => false

/-- The `no_sniff` flag: `On` iff some raw `X-content-type-options` value is
exactly `nosniff`. -/
def computeNoSniffFlag (metadata : Metadata) : Bool :=
  match metadata.headers with
  | some hs =>
    match get_raw hs "X-content-type-options" with
    | some vals => vals.any (fun v => v == "nosniff")
    | none => false
  | none => false

/-- `start_sending_sniffed_opt`: with the sniff preference on, derive the two
flags, classify, rebuild the content type from the verdict (the sub-level is
`parse().unwrap()`ed — an unparseable sub-level aborts), and delegate; with the
preference off, delegate with the metadata untouched. -/
def start_sending_sniffed_opt (env : Env) (fresh start_chan : Chan)
    (metadata : Metadata) (body : List Nat) (context : LoadContext) :
    Except PanicReason (Option ProgressSender × List SendEvt) :=
  if env.prefSniff then
    let no_sniff := computeNoSniffFlag metadata
    let check_for_apache_bug := computeApacheFlag env metadata
    let supplied_type := metadata.content_type
    let (toplevel, sublevel) :=
      env.classify context no_sniff check_for_apache_bug supplied_type body
    match env.parseSubLevel sublevel with
    | some sb =>
      .ok (start_sending_opt env fresh start_chan
            { metadata with content_type := some (toplevel, sb) })
    | none => .error .mimeParse
  else .ok (start_sending_opt env fresh start_chan metadata)

/-- `ResourceGroup`: the four independently shared caches; the connection pool
is identified by its allocation index. -/
structure ResourceGroup where
  cookie_jar : CookieStorage
  auth_cache : AuthCache
  hsts_list : HstsList
  connector : Nat
deriving DecidableEq, Repr

/-- `create_resource_groups(config_dir)`: public group seeded from the HSTS
preload and overlaid from the three JSON files when a config directory is
supplied; private group always built from empty defaults; the two connection
pools are the two distinct `create_http_connector()` allocations (0 then 1). -/
def create_resource_groups (env : Env) (config_dir : Option String) :
    Except PanicReason (ResourceGroup × ResourceGroup) :=
  match config_dir with
  | some _ =>
    match read_json_from_file env.decodeAuth (env.fileState "auth_cache.json") AuthCache.new with
    | .error e => .error e
    | .ok (auth_cache, _) =>
      match read_json_from_file env.decodeHsts (env.fileState "hsts_list.json") env.preload with
      | .error e => .error e
      | .ok (hsts_list, _) =>
        match read_json_from_file env.decodeJar (env.fileState "cookie_jar.json")
            (CookieStorage.new 150) with
        | .error e => .error e
        | .ok (cookie_jar, _) =>
          .ok ({ cookie_jar := cookie_jar, auth_cache := auth_cache,
                 hsts_list := hsts_list, connector := 0 },
               { cookie_jar := CookieStorage.new 150, auth_cache := AuthCache.new,
                 hsts_list := HstsList.new, connector := 1 })
  | none =>
    .ok ({ cookie_jar := CookieStorage.new 150, auth_cache := AuthCache.new,
           hsts_list := env.preload, connector := 0 },
         { cookie_jar := CookieStorage.new 150, auth_cache := AuthCache.new,
           hsts_list := HstsList.new, connector := 1 })

/-- The two inbound channel endpoints: channel identity, never message content,
selects the group. -/
inductive ChanSide
  | pub
  | priv
deriving DecidableEq, Repr

/-- `CoreResourceMsg`, the tagged message set of the dispatch loop. -/
inductive CoreResourceMsg
  | Fetch (init : RequestInit) (sender : Chan)
  | WebsocketConnect (connect : Nat) (connect_data : Nat)
  | SetCookiesForUrl (request : ServoUrl) (cookie_list : String) (source : CookieSource)
  | SetCookiesForUrlWithData (request : ServoUrl) (cookie : RawCookie) (source : CookieSource)
  | GetCookiesForUrl (url : ServoUrl) (consumer : Chan) (source : CookieSource)
  | NetworkMediator (mediator_chan : Chan)
  | GetCookiesDataForUrl (url : ServoUrl) (consumer : Chan) (source : CookieSource)
  | Cancel (res_id : ResourceId)
  | Synchronize (sender : Chan)
  | ToFileManager (msg : Nat)
  | Exit (sender : Chan)
deriving DecidableEq, Repr

/-- Observable effects of one dispatch-loop step (spawns, replies, signals). -/
inductive Event
  | FetchSpawned (side : ChanSide) (init : RequestInit) (sender : Chan)
  | WebsocketInit (side : ChanSide)
  | CookiesReply (side : ChanSide) (consumer : Chan) (cookies : List Cookie)
  | CookiesDataReply (side : ChanSide) (consumer : Chan) (cookies : List Cookie)
  | CancelSignal (chan : Chan) (delivered : Bool)
  | SyncAck (chan : Chan) (delivered : Bool)
  | FileManagerMsg (msg : Nat)
  | ExitAck (chan : Chan) (delivered : Bool)
deriving DecidableEq, Repr

/-- The state owned by `ResourceChannelManager` and `CoreResourceManager`
together with both groups and the modelled config directory. -/
structure SysState where
  swmanager_chan : Option Chan
  cancel_load_map : List (ResourceId × Chan)
  publicGroup : ResourceGroup
  privateGroup : ResourceGroup
  fs : List (String × String)
  config_dir : Option String
deriving DecidableEq, Repr

/-- The group a channel endpoint resolves to. -/
def getGroup (side : ChanSide) (st : SysState) : ResourceGroup :=
  match side with
  | .pub => st.publicGroup
  | .priv => st.privateGroup

/-- Replace the cookie jar of the group owned by `side`. -/
def updateJar (side : ChanSide) (st : SysState) (jar : CookieStorage) : SysState :=
  match side with
  | .pub => { st with publicGroup := { st.publicGroup with cookie_jar := jar } }
  | .priv => { st with privateGroup := { st.privateGroup with cookie_jar := jar } }

/-- `CoreResourceManager::set_cookies_for_url`: parse the raw `Set-Cookie`
header; each bare cookie that validates is pushed; parse or validation failure
changes nothing. -/
def set_cookies_for_url (env : Env) (request : ServoUrl) (cookie_list : String)
    (source : CookieSource) (jar : CookieStorage) : CookieStorage :=
  match env.parse_header cookie_list with
  | some cookies =>
    cookies.foldl (fun j bare =>
      match env.new_wrapped bare request source with
      | some c => j.push c source
      | none => j) jar
  | none => jar

/-- `CoreResourceManager::set_cookies_for_url_with_data`: same contract for a
pre-parsed cookie. -/
def set_cookies_for_url_with_data (env : Env) (request : ServoUrl) (cookie : RawCookie)
    (source : CookieSource) (jar : CookieStorage) : CookieStorage :=
  match env.new_wrapped cookie request source with
  | some c => jar.push c source
  | none => jar

/-- The three `write_json_to_file` calls of the `Exit` arm, in source order
(auth cache, cookie jar, HSTS list).  `json::encode` of these types always
succeeds, hence `some`. -/
def persist_group (env : Env) (g : ResourceGroup) (fs : List (String × String)) :
    Except PanicReason (List (String × String)) :=
  match write_json_to_file (some (env.encodeAuth g.auth_cache))
      (env.createOk "auth_cache.json") (env.writeOk "auth_cache.json") fs "auth_cache.json" with
  | .error e => .error e
  | .ok fs1 =>
    match write_json_to_file (some (env.encodeJar g.cookie_jar))
        (env.createOk "cookie_jar.json") (env.writeOk "cookie_jar.json") fs1 "cookie_jar.json" with
    | .error e => .error e
    | .ok fs2 =>
      write_json_to_file (some (env.encodeHsts g.hsts_list))
        (env.createOk "hsts_list.json") (env.writeOk "hsts_list.json") fs2 "hsts_list.json"

/-- `ResourceChannelManager::process_msg`: one message dispatched against the
group resolved from the receiving channel; the `Bool` is Rust's "keep looping";
`.error` marks an `unwrap`/`panic!` abort. -/
def process_msg (env : Env) (st : SysState) (side : ChanSide) (msg : CoreResourceMsg) :
    Except PanicReason (SysState × List Event × Bool) :=
  match msg with
  | .Fetch init sender => .ok (st, [.FetchSpawned side init sender], true)
  | .WebsocketConnect _ _ => .ok (st, [.WebsocketInit side], true)
  | .SetCookiesForUrl request cookie_list source =>
    .ok (updateJar side st
          (set_cookies_for_url env request cookie_list source (getGroup side st).cookie_jar),
         [], true)
  | .SetCookiesForUrlWithData request cookie source =>
    .ok (updateJar side st
          (set_cookies_for_url_with_data env request cookie source (getGroup side st).cookie_jar),
         [], true)
  | .GetCookiesForUrl url consumer source =>
    let cs := (getGroup side st).cookie_jar.cookies_for_url env.cookieMatch url source
    if env.connected consumer then .ok (st, [.CookiesReply side consumer cs], true)
    else .error .sendFail
  | .NetworkMediator mediator_chan =>
    .ok ({ st with swmanager_chan := some mediator_chan }, [], true)
  | .GetCookiesDataForUrl url consumer source =>
    let cs := (getGroup side st).cookie_jar.cookies_for_url env.cookieMatch url source
    if env.connected consumer then .ok (st, [.CookiesDataReply side consumer cs], true)
    else .error .sendFail
  | .Cancel res_id =>
    let evs := match st.cancel_load_map.lookup res_id with
      | some c => [Event.CancelSignal c (env.connected c)]
      | none => []
    .ok ({ st with cancel_load_map := st.cancel_load_map.filter (fun p => p.1 != res_id) },
         evs, true)
  | .Synchronize sender => .ok (st, [.SyncAck sender (env.connected sender)], true)
  | .ToFileManager m => .ok (st, [.FileManagerMsg m], true)
  | .Exit sender =>
    match st.config_dir with
    | some _ =>
      match persist_group env (getGroup side st) st.fs with
      | .error e => .error e
      | .ok fs => .ok ({ st with fs := fs }, [.ExitAck sender (env.connected sender)], false)
    | none => .ok (st, [.ExitAck sender (env.connected sender)], false)

/-- Whether the dispatch loop is still serving, has returned, or has aborted. -/
inductive LoopStatus
  | running
  | stopped
  | panicked (why : PanicReason)
deriving DecidableEq, Repr

/-- The loop's cumulative view: state, emitted events, status. -/
structure LoopState where
  st : SysState
  events : List Event
  status : LoopStatus
deriving DecidableEq, Repr

/-- One inbound item: the receiving channel and the deserialized message
(`none` when `data.to()` failed). -/
abbrev InItem := ChanSide × Option CoreResourceMsg

/-- One iteration of `ResourceChannelManager::start`'s loop body: a message that
fails to deserialize is skipped; a processed message updates state and events;
`false` from `process_msg` stops the loop; an abort freezes everything. -/
def runStep (env : Env) (ls : LoopState) (item : InItem) : LoopState :=
  match ls.status with
  | .running =>
    match item.2 with
    | none => ls
    | some msg =>
      match process_msg env ls.st item.1 msg with
      | .error why => { ls with status := .panicked why }
      | .ok (st, evs, cont) =>
        { st := st, events := ls.events ++ evs,
          status := if cont then .running else .stopped }
  | _ => ls

/-- The dispatch loop over a whole inbound sequence. -/
def runTrace (env : Env) (ls : LoopState) (items : List InItem) : LoopState :=
  items.foldl (runStep env) ls

/-- `ResourceChannelManager::start` before the loop: build both groups and
enter the running state with no events yet. -/
def initLoopState (env : Env) (config_dir : Option String) :
    Except PanicReason LoopState :=
  match create_resource_groups env config_dir with
  | .error e => .error e
  | .ok (pubG, privG) =>
    .ok { st := { swmanager_chan := none, cancel_load_map := [], publicGroup := pubG,
                  privateGroup := privG, fs := [], config_dir := config_dir },
          events := [], status := .running }

/-! Concrete environments and states used to evaluate the model on specific
inputs. -/

/-- A baseline environment: every peer disconnected, every collaborator
trivial. -/
def envDisc : Env where
  connected := fun _ => false
  parse_header := fun _ => none
  new_wrapped := fun _ _ _ => none
  cookieMatch := fun _ _ _ => true
  preload := []
  fileState := fun _ => .absent
  decodeAuth := fun _ => none
  decodeHsts := fun _ => none
  decodeJar := fun _ => none
  encodeAuth := fun _ => ""
  encodeHsts := fun _ => ""
  encodeJar := fun jar => String.intercalate ";" jar.cookies
  createOk := fun _ => true
  writeOk := fun _ => true
  prefSniff := false
  classify := fun _ _ _ _ _ => ("text", "html")
  fromContentType := fun _ => false
  parseSubLevel := fun s => some s

/-- A fresh public-style group with pool 0. -/
def group0 : ResourceGroup :=
  { cookie_jar := CookieStorage.new 150, auth_cache := AuthCache.new,
    hsts_list := [], connector := 0 }

/-- A concrete manager state with empty caches and no config directory. -/
def st0 : SysState :=
  { swmanager_chan := none, cancel_load_map := [], publicGroup := group0,
    privateGroup := { group0 with connector := 1 }, fs := [], config_dir := none }

/-! Helper lemmas shared by the claim theorems. -/

/-- The cookies of a raw `Set-Cookie` header value that both parse and pass
validation against the URL and source — exactly the ones the setters accept. -/
def validatedCookies (env : Env) (request : ServoUrl) (cookie_list : String)
    (source : CookieSource) : List Cookie :=
  ((env.parse_header cookie_list).getD []).filterMap
    (fun b => env.new_wrapped b request source)

/-- Folding the per-cookie push over a list of bare cookies appends exactly the
validated ones. -/
theorem push_foldl (env : Env) (request : ServoUrl) (source : CookieSource)
    (cs : List RawCookie) (jar : CookieStorage) :
    (cs.foldl (fun j bare =>
        match env.new_wrapped bare request source with
        | some c => j.push c source
        | none => j) jar)
      = { jar with cookies := jar.cookies
            ++ cs.filterMap (fun b => env.new_wrapped b request source) } := by
  induction cs generalizing jar with
  | nil => simp
  | cons b bs ih =>
    cases h : env.new_wrapped b request source with
    | none => simp [List.foldl_cons, h, ih]
    | some c =>
      simp only [List.foldl_cons, h]
      rw [ih]
      simp [CookieStorage.push, List.filterMap_cons, h]

/-- Characterization of `set_cookies_for_url`: the jar gains exactly the
cookies that parse and validate, in order, and nothing else changes. -/
theorem set_cookies_for_url_eq (env : Env) (request : ServoUrl) (cookie_list : String)
    (source : CookieSource) (jar : CookieStorage) :
    set_cookies_for_url env request cookie_list source jar
      = { jar with cookies := jar.cookies ++ validatedCookies env request cookie_list source } := by
  unfold set_cookies_for_url validatedCookies
  cases h : env.parse_header cookie_list with
  | none => simp
  | some cs => simpa using push_foldl env request source cs jar

/-- If an id has no binding in an association list, filtering it out is the
identity. -/
theorem filter_eq_of_lookup_none {l : List (ResourceId × Chan)} {i : ResourceId}
    (h : l.lookup i = none) : l.filter (fun p => p.1 != i) = l := by
  induction l with
  | nil => rfl
  | cons p ps ih =>
    obtain ⟨k, c⟩ := p
    by_cases hk : i = k
    · subst hk
      simp [List.lookup] at h
    · have hk2 : (i == k) = false := by simpa using hk
      rw [List.lookup, hk2] at h
      have hk3 : (k != i) = true := by simpa using Ne.symm hk
      simp [List.filter, hk3, ih h]

/-! Claim theorems. -/

/-- C7: for every call to `set_cookies_for_url(url, raw, source, group)`, the
raw header value is parsed and each syntactically valid cookie that also passes
validation against the URL and source is inserted into the group's jar, in
order; every invalid or rejected cookie is silently dropped — the function
always returns normally, reports nothing, and leaves the jar otherwise
unchanged (same capacity, prior cookies intact). -/
theorem set_cookies_for_url_inserts_validated (env : Env) (request : ServoUrl)
    (cookie_list : String) (source : CookieSource) (jar : CookieStorage) :
    set_cookies_for_url env request cookie_list source jar
      = { capacity := jar.capacity,
          cookies := jar.cookies ++ validatedCookies env request cookie_list source } :=
  set_cookies_for_url_eq env request cookie_list source jar

/-- C5: `write_json_to_file` stores the serialized text, overwriting any prior
file under the same name, and a failure to create the destination file aborts
the whole manager process (it is not a recoverable error). -/
theorem write_json_to_file_spec (s : String) (w : Bool) (fs : List (String × String))
    (name : String) :
    write_json_to_file (some s) true true fs name = .ok (setFile fs name s)
    ∧ (setFile fs name s).lookup name = some s
    ∧ write_json_to_file (some s) false w fs name = .error .fileCreate := by
  refine ⟨rfl, ?_, rfl⟩
  simp [setFile, List.lookup]

/-- C4 counterexample: a file that is present and opens, but whose content
cannot be read (an I/O error or non-UTF-8 bytes), makes `read_json_from_file`
abort the process instead of keeping the default with a warning. -/
theorem read_json_readError_aborts :
    read_json_from_file (fun _ => (none : Option AuthCache)) .readError AuthCache.new
      = .error .fileRead := rfl

/-- C4 amended: if the file is absent or fails to open, the store keeps its
caller-supplied default and only a warning is reported; if the file opens but
its content is read successfully and fails to decode, the default is likewise
kept with a warning; but a failure to read the opened file's content is fatal
to the process. -/
theorem read_json_from_file_spec {T : Type} (decode : String → Option T) (d : T) :
    read_json_from_file decode .absent d = .ok (d, [.warnOpen])
    ∧ read_json_from_file decode .openError d = .ok (d, [.warnOpen])
    ∧ read_json_from_file decode .readError d = .error .fileRead
    ∧ (∀ s v, decode s = some v → read_json_from_file decode (.content s) d = .ok (v, []))
    ∧ (∀ s, decode s = none → read_json_from_file decode (.content s) d = .ok (d, [.warnDecode])) := by
  refine ⟨rfl, rfl, rfl, ?_, ?_⟩
  · intro s v h
    simp [read_json_from_file, h]
  · intro s h
    simp [read_json_from_file, h]

/-- Witness for C4's amended theorem at a concrete decoder. -/
theorem read_json_from_file_spec_witness :
    read_json_from_file (fun s => if s = "ok" then some 7 else none) (.content "ok") (0 : Nat)
      = .ok (7, [])
    ∧ read_json_from_file (fun s => if s = "ok" then some 7 else none) (.content "bad") (0 : Nat)
      = .ok (0, [.warnDecode]) := by
  have h := read_json_from_file_spec (fun s => if s = "ok" then some 7 else none) (0 : Nat)
  exact ⟨h.2.2.2.1 "ok" 7 (by decide), h.2.2.2.2 "bad" (by decide)⟩

/-- C6: `Cancel(id)` with no registered sender is a no-op — same state, no
events, loop continues; `Cancel(id)` with a registered sender emits exactly one
cancellation signal to it (best-effort: `delivered` records whether the peer
was still connected, and the result is normal either way) and removes the
registration regardless of delivery. -/
theorem cancel_msg_spec (env : Env) (st : SysState) (side : ChanSide) (res_id : ResourceId) :
    (st.cancel_load_map.lookup res_id = none →
      process_msg env st side (.Cancel res_id) = .ok (st, [], true))
    ∧ ∀ c, st.cancel_load_map.lookup res_id = some c →
      process_msg env st side (.Cancel res_id)
        = .ok ({ st with cancel_load_map := st.cancel_load_map.filter (fun p => p.1 != res_id) },
               [.CancelSignal c (env.connected c)], true) := by
  constructor
  · intro h
    simp [process_msg, h, filter_eq_of_lookup_none h]
  · intro c h
    simp [process_msg, h]

/-- A concrete manager state with one registered cancellation. -/
def stCancel : SysState := { st0 with cancel_load_map := [(1, 7)] }

/-- Witness for C6 at a concrete registry: id 2 is unknown (no-op), id 1 is
registered at channel 7 (one signal, entry removed, send failure ignored). -/
theorem cancel_msg_spec_witness :
    process_msg envDisc stCancel .pub (.Cancel 2) = .ok (stCancel, [], true)
    ∧ process_msg envDisc stCancel .pub (.Cancel 1)
        = .ok ({ stCancel with
                 cancel_load_map := stCancel.cancel_load_map.filter (fun p => p.1 != 1) },
               [.CancelSignal 7 false], true) :=
  ⟨(cancel_msg_spec envDisc stCancel .pub 2).1 rfl,
   (cancel_msg_spec envDisc stCancel .pub 1).2 7 rfl⟩

/-- C10: an inbound item that fails to deserialize is silently discarded by the
dispatch loop: no state change, no events, no reply, and the loop neither
stops nor aborts — running the rest of the trace from the same point. -/
theorem undecodable_message_ignored (env : Env) (ls : LoopState) (side : ChanSide)
    (rest : List InItem) :
    runStep env ls (side, none) = ls
    ∧ runTrace env ls ((side, none) :: rest) = runTrace env ls rest := by
  have h : runStep env ls (side, none) = ls := by
    unfold runStep
    cases ls.status <;> rfl
  exact ⟨h, by simp [runTrace, h]⟩

/-- C3 counterexample: a `GetCookiesForUrl` whose reply channel's peer has
disconnected is not surfaced as a local error — the dispatch loop unwraps the
failed send and the whole loop crashes. -/
theorem get_cookies_disconnected_crashes :
    process_msg envDisc st0 .pub (.GetCookiesForUrl "https://a.test/" 5 .HTTP)
      = .error .sendFail := rfl

/-- C3 amended: when the reply peer has disconnected, `start_sending_opt`
surfaces the failure as a local error result (`none`) and `send_error` returns
normally without sending anything, but the dispatch loop's replies to
`GetCookiesForUrl` and `GetCookiesDataForUrl` unwrap the failed send and crash
the loop. -/
theorem reply_disconnect_behavior (env : Env) (fresh chan : Chan) (metadata : Metadata)
    (url : ServoUrl) (err : NetworkError) (st : SysState) (side : ChanSide)
    (source : CookieSource) (h : env.connected chan = false) :
    start_sending_opt env fresh chan metadata = (none, [])
    ∧ send_error env fresh url err chan = .ok []
    ∧ process_msg env st side (.GetCookiesForUrl url chan source) = .error .sendFail
    ∧ process_msg env st side (.GetCookiesDataForUrl url chan source) = .error .sendFail := by
  refine ⟨?_, ?_, ?_, ?_⟩
  · simp [start_sending_opt, h]
  · simp [send_error, start_sending_opt, h]
  · simp [process_msg, h]
  · simp [process_msg, h]

/-- Witness for C3's amended theorem: peer 4 is disconnected in `envDisc`. -/
theorem reply_disconnect_behavior_witness :
    start_sending_opt envDisc 9 4 (Metadata.mkDefault "u") = (none, [])
    ∧ send_error envDisc 9 "u" "refused" 4 = .ok []
    ∧ process_msg envDisc st0 .pub (.GetCookiesForUrl "u" 4 .HTTP) = .error .sendFail
    ∧ process_msg envDisc st0 .pub (.GetCookiesDataForUrl "u" 4 .HTTP) = .error .sendFail :=
  reply_disconnect_behavior envDisc 9 4 (Metadata.mkDefault "u") "u" "refused" st0 .pub .HTTP rfl

/-- C9: with the sniffing preference enabled, the no-sniff flag is set exactly
when the response headers carry an `X-Content-Type-Options` value equal to
`nosniff`; the Apache-bug flag is derived from the last declared raw
`content-type` header value; the classifier is invoked with the declared type,
the two flags and the first body bytes, and the metadata's content type is
overwritten with the classifier's verdict before delegating to
`start_sending_opt`; with the preference disabled the metadata is passed
through unchanged. -/
theorem sniffed_spec (env : Env) (fresh start_chan : Chan) (metadata : Metadata)
    (body : List Nat) (context : LoadContext) :
    (computeNoSniffFlag metadata = true ↔
      ∃ hs vals, metadata.headers = some hs
        ∧ get_raw hs "X-content-type-options" = some vals ∧ "nosniff" ∈ vals)
    ∧ (computeApacheFlag env metadata
        = ((metadata.headers.bind (fun hs => (get_raw hs "content-type").bind List.getLast?)).map
            env.fromContentType).getD false)
    ∧ (env.prefSniff = true → ∀ tp sb sb2,
        env.classify context (computeNoSniffFlag metadata) (computeApacheFlag env metadata)
          metadata.content_type body = (tp, sb) →
        env.parseSubLevel sb = some sb2 →
        start_sending_sniffed_opt env fresh start_chan metadata body context
          = .ok (start_sending_opt env fresh start_chan
                  { metadata with content_type := some (tp, sb2) }))
    ∧ (env.prefSniff = false →
        start_sending_sniffed_opt env fresh start_chan metadata body context
          = .ok (start_sending_opt env fresh start_chan metadata)) := by
  refine ⟨?_, ?_, ?_, ?_⟩
  · unfold computeNoSniffFlag
    cases hh : metadata.headers with
    | none => simp
    | some hs =>
      cases hv : get_raw hs "X-content-type-options" with
      | none => simp [hv]
      | some vals => simp [hv, List.any_eq_true]
  · unfold computeApacheFlag
    cases hh : metadata.headers with
    | none => rfl
    | some hs =>
      cases hv : (get_raw hs "content-type").bind List.getLast? with
      | none => simp [hv]
      | some ct => simp [hv]
  · intro hp tp sb sb2 hcl hsub
    unfold start_sending_sniffed_opt
    rw [hp]
    simp only [if_true, hcl, hsub]
  · intro hp
    unfold start_sending_sniffed_opt
    simp [hp]

/-- An environment with sniffing enabled and every peer connected. -/
def envSniff : Env := { envDisc with prefSniff := true, connected := fun _ => true }

/-- Response metadata declaring `text/plain` with a `nosniff` directive. -/
def mdSniff : Metadata :=
  { content_type := some ("text", "plain"),
    headers := some [("X-Content-Type-Options", ["nosniff"]), ("Content-Type", ["text/plain"])],
    status := some 200 }

/-- Witness for C9 at a concrete classifier run (preference on) and at a
pass-through run (preference off). -/
theorem sniffed_spec_witness :
    start_sending_sniffed_opt envSniff 11 2 mdSniff [60] 0
      = .ok (start_sending_opt envSniff 11 2 { mdSniff with content_type := some ("text", "html") })
    ∧ start_sending_sniffed_opt envDisc 11 2 mdSniff [60] 0
      = .ok (start_sending_opt envDisc 11 2 mdSniff) :=
  ⟨(sniffed_spec envSniff 11 2 mdSniff [60] 0).2.2.1 rfl "text" "html" "html" rfl rfl,
   (sniffed_spec envDisc 11 2 mdSniff [60] 0).2.2.2 rfl⟩

/-- The private group as always constructed: empty defaults, pool 1. -/
def privDefault : ResourceGroup :=
  { cookie_jar := CookieStorage.new 150, auth_cache := AuthCache.new,
    hsts_list := HstsList.new, connector := 1 }

/-- C8: `create_resource_groups` yields exactly one public and one private
group.  Without a config directory the public group is the pure defaults
(capacity-150 jar, fresh auth cache, the vendor HSTS preload as baseline) and
nothing is read from disk; with a config directory the three caches are the
result of overlaying the persisted files onto those same defaults.  The
private group is always the empty defaults with a capacity-150 jar, and the
two groups' connection pools are distinct allocations. -/
theorem create_resource_groups_spec (env : Env) :
    create_resource_groups env none
      = .ok ({ cookie_jar := CookieStorage.new 150, auth_cache := AuthCache.new,
               hsts_list := env.preload, connector := 0 }, privDefault)
    ∧ (CookieStorage.new 150).capacity = 150
    ∧ (∀ dir pubG privG, create_resource_groups env (some dir) = .ok (pubG, privG) →
        privG = privDefault ∧ pubG.connector ≠ privG.connector)
    ∧ (∀ dir a w1 h w2 j w3,
        read_json_from_file env.decodeAuth (env.fileState "auth_cache.json") AuthCache.new
          = .ok (a, w1) →
        read_json_from_file env.decodeHsts (env.fileState "hsts_list.json") env.preload
          = .ok (h, w2) →
        read_json_from_file env.decodeJar (env.fileState "cookie_jar.json") (CookieStorage.new 150)
          = .ok (j, w3) →
        create_resource_groups env (some dir)
          = .ok ({ cookie_jar := j, auth_cache := a, hsts_list := h, connector := 0 },
                 privDefault)) := by
  refine ⟨rfl, rfl, ?_, ?_⟩
  · intro dir pubG privG hc
    unfold create_resource_groups at hc
    cases h1 : read_json_from_file env.decodeAuth (env.fileState "auth_cache.json") AuthCache.new with
    | error e => rw [h1] at hc; exact absurd hc (by simp)
    | ok p1 =>
      obtain ⟨a, w1⟩ := p1
      rw [h1] at hc
      cases h2 : read_json_from_file env.decodeHsts (env.fileState "hsts_list.json") env.preload with
      | error e => rw [h2] at hc; exact absurd hc (by simp)
      | ok p2 =>
        obtain ⟨h, w2⟩ := p2
        rw [h2] at hc
        cases h3 : read_json_from_file env.decodeJar (env.fileState "cookie_jar.json")
            (CookieStorage.new 150) with
        | error e => rw [h3] at hc; exact absurd hc (by simp)
        | ok p3 =>
          obtain ⟨j, w3⟩ := p3
          rw [h3] at hc
          simp only [Except.ok.injEq, Prod.mk.injEq] at hc
          obtain ⟨hpub, hpriv⟩ := hc
          subst hpub hpriv
          exact ⟨rfl, by simp [privDefault]⟩
  · intro dir a w1 h w2 j w3 h1 h2 h3
    unfold create_resource_groups
    rw [h1, h2, h3]
    rfl

/-- An environment whose directory holds a decodable HSTS file and nothing
else. -/
def envCfg : Env :=
  { envDisc with
    fileState := fun name => if name = "hsts_list.json" then .content "H" else .absent,
    decodeHsts := fun s => if s = "H" then some ["host.example"] else none }

/-- The public group expected for `envCfg`: HSTS overlaid, other caches at the
defaults. -/
def pubCfg : ResourceGroup :=
  { cookie_jar := CookieStorage.new 150, auth_cache := AuthCache.new,
    hsts_list := ["host.example"], connector := 0 }

/-- Witness for C8 at a concrete directory: the HSTS file overlays the preload,
the missing auth and cookie files leave the defaults, the private group is
untouched and the pools differ. -/
theorem create_resource_groups_spec_witness :
    create_resource_groups envCfg (some "dir") = .ok (pubCfg, privDefault)
    ∧ (privDefault = privDefault ∧ pubCfg.connector ≠ privDefault.connector) := by
  have hs := create_resource_groups_spec envCfg
  have hmain := hs.2.2.2 "dir" AuthCache.new [.warnOpen] ["host.example"] []
    (CookieStorage.new 150) [.warnOpen] rfl rfl rfl
  exact ⟨hmain, hs.2.2.1 "dir" pubCfg privDefault hmain⟩

/-- An environment where every peer is connected and every cookie validates. -/
def envLeak : Env :=
  { envDisc with connected := fun _ => true, new_wrapped := fun ck _ _ => some ck }

/-- The failing input for C1: a cookie arrives on the private channel, then an
`Exit` arrives on the private channel. -/
def leakTrace : List InItem :=
  [(.priv, some (.SetCookiesForUrlWithData "https://a.test/" "secret=1" .HTTP)),
   (.priv, some (.Exit 0))]

/-- C1 at the failing input: with a config directory configured, an `Exit`
received on the private channel persists the issuing (private) group's caches —
`cookie_jar.json` ends up holding exactly the serialized private cookie jar
(the cookie set through the private channel), not the (empty) public jar, and
the loop then stops. -/
theorem private_exit_persists_private_state :
    (initLoopState envLeak (some "dir")).map (fun ls0 =>
        ((runTrace envLeak ls0 leakTrace).st.fs.lookup "cookie_jar.json",
         envLeak.encodeJar (runTrace envLeak ls0 leakTrace).st.privateGroup.cookie_jar,
         envLeak.encodeJar (runTrace envLeak ls0 leakTrace).st.publicGroup.cookie_jar,
         (runTrace envLeak ls0 leakTrace).status))
      = .ok (some "secret=1", "secret=1", "", .stopped) := by rfl

/-! Infrastructure for the isolation hyperproperty (C2). -/

/-- A reply event on channel `side` is clean of cookie `c`. -/
def replyClean (side : ChanSide) (c : Cookie) (ev : Event) : Bool :=
  match ev with
  | .CookiesReply s _ cs => s != side || !(decide (c ∈ cs))
  | .CookiesDataReply s _ cs => s != side || !(decide (c ∈ cs))
  | _ => true

/-- The cookies a message can cause to be inserted (only the two setters insert
anything). -/
def acceptedCookies (env : Env) (m : CoreResourceMsg) : List Cookie :=
  match m with
  | .SetCookiesForUrl request cookie_list source => validatedCookies env request cookie_list source
  | .SetCookiesForUrlWithData request cookie source => (env.new_wrapped cookie request source).toList
  | _ => []

/-- The cookies an inbound item can cause to be inserted. -/
def acceptedOfItem (env : Env) (it : InItem) : List Cookie :=
  match it.2 with
  | some m => acceptedCookies env m
  | none => []

/-- Characterization of the pre-parsed setter. -/
theorem set_cookies_for_url_with_data_eq (env : Env) (request : ServoUrl) (ck : RawCookie)
    (source : CookieSource) (jar : CookieStorage) :
    set_cookies_for_url_with_data env request ck source jar
      = { jar with cookies := jar.cookies ++ (env.new_wrapped ck request source).toList } := by
  unfold set_cookies_for_url_with_data
  cases h : env.new_wrapped ck request source with
  | none => simp
  | some c => simp [CookieStorage.push]

/-- `updateJar` only touches the named side's jar. -/
theorem getGroup_updateJar (side side2 : ChanSide) (st : SysState) (jar : CookieStorage) :
    getGroup side (updateJar side2 st jar)
      = if side = side2 then { getGroup side st with cookie_jar := jar }
        else getGroup side st := by
  cases side <;> cases side2 <;> simp [getGroup, updateJar]

/-- Updating the cancellation registry leaves both groups alone. -/
theorem getGroup_set_cancel (side : ChanSide) (st : SysState) (x : List (ResourceId × Chan)) :
    getGroup side { st with cancel_load_map := x } = getGroup side st := by
  cases side <;> rfl

/-- Recording the mediator channel leaves both groups alone. -/
theorem getGroup_set_swmanager (side : ChanSide) (st : SysState) (x : Option Chan) :
    getGroup side { st with swmanager_chan := x } = getGroup side st := by
  cases side <;> rfl

/-- Writing files leaves both groups alone. -/
theorem getGroup_set_fs (side : ChanSide) (st : SysState) (x : List (String × String)) :
    getGroup side { st with fs := x } = getGroup side st := by
  cases side <;> rfl

/-- A queried cookie list only contains cookies of the queried jar. -/
theorem not_mem_cookies_for_url {c : Cookie} {jar : CookieStorage}
    (h : c ∉ jar.cookies) (m : Cookie → ServoUrl → CookieSource → Bool)
    (url : ServoUrl) (source : CookieSource) :
    c ∉ jar.cookies_for_url m url source := by
  intro hmem
  exact h (List.mem_of_mem_filter hmem)

/-- One successfully processed message on channel `side2` neither puts a
foreign cookie into `side`'s jar nor reveals it in a reply on `side`'s
channel. -/
theorem process_msg_iso (env : Env) (side side2 : ChanSide) (c : Cookie)
    (st st2 : SysState) (evs : List Event) (cont : Bool) (msg : CoreResourceMsg)
    (hok : process_msg env st side2 msg = .ok (st2, evs, cont))
    (hjar : c ∉ (getGroup side st).cookie_jar.cookies)
    (hacc : side2 = side → c ∉ acceptedCookies env msg) :
    c ∉ (getGroup side st2).cookie_jar.cookies
    ∧ ∀ ev ∈ evs, replyClean side c ev = true := by
  cases msg with
  | Fetch init sender =>
    simp only [process_msg, Except.ok.injEq, Prod.mk.injEq] at hok
    obtain ⟨h1, h2, h3⟩ := hok
    subst h1 h2
    exact ⟨hjar, by intro ev hev; simp at hev; subst hev; rfl⟩
  | WebsocketConnect connect connect_data =>
    simp only [process_msg, Except.ok.injEq, Prod.mk.injEq] at hok
    obtain ⟨h1, h2, h3⟩ := hok
    subst h1 h2
    exact ⟨hjar, by intro ev hev; simp at hev; subst hev; rfl⟩
  | SetCookiesForUrl request cookie_list source =>
    simp only [process_msg, Except.ok.injEq, Prod.mk.injEq] at hok
    obtain ⟨h1, h2, h3⟩ := hok
    subst h1 h2
    refine ⟨?_, by simp⟩
    rw [getGroup_updateJar]
    by_cases hside : side = side2
    · subst hside
      simp only [if_pos rfl]
      rw [set_cookies_for_url_eq]
      intro hmem
      rcases List.mem_append.1 hmem with h | h
      · exact hjar h
      · exact hacc rfl (by simpa [acceptedCookies] using h)
    · simp only [if_neg hside]
      exact hjar
  | SetCookiesForUrlWithData request cookie source =>
    simp only [process_msg, Except.ok.injEq, Prod.mk.injEq] at hok
    obtain ⟨h1, h2, h3⟩ := hok
    subst h1 h2
    refine ⟨?_, by simp⟩
    rw [getGroup_updateJar]
    by_cases hside : side = side2
    · subst hside
      simp only [if_pos rfl]
      rw [set_cookies_for_url_with_data_eq]
      intro hmem
      rcases List.mem_append.1 hmem with h | h
      · exact hjar h
      · exact hacc rfl (by simpa [acceptedCookies] using h)
    · simp only [if_neg hside]
      exact hjar
  | GetCookiesForUrl url consumer source =>
    cases hcon : env.connected consumer with
    | false => simp [process_msg, hcon] at hok
    | true =>
      simp only [process_msg, hcon, if_true, Except.ok.injEq, Prod.mk.injEq] at hok
      obtain ⟨h1, h2, h3⟩ := hok
      subst h1 h2
      refine ⟨hjar, ?_⟩
      intro ev hev
      simp at hev
      subst hev
      unfold replyClean
      by_cases hside : side2 = side
      · subst hside
        have hn := not_mem_cookies_for_url hjar env.cookieMatch url source
        simp [hn]
      · simp [hside]
  | NetworkMediator mediator_chan =>
    simp only [process_msg, Except.ok.injEq, Prod.mk.injEq] at hok
    obtain ⟨h1, h2, h3⟩ := hok
    subst h1 h2
    rw [getGroup_set_swmanager]
    exact ⟨hjar, by simp⟩
  | GetCookiesDataForUrl url consumer source =>
    cases hcon : env.connected consumer with
    | false => simp [process_msg, hcon] at hok
    | true =>
      simp only [process_msg, hcon, if_true, Except.ok.injEq, Prod.mk.injEq] at hok
      obtain ⟨h1, h2, h3⟩ := hok
      subst h1 h2
      refine ⟨hjar, ?_⟩
      intro ev hev
      simp at hev
      subst hev
      unfold replyClean
      by_cases hside : side2 = side
      · subst hside
        have hn := not_mem_cookies_for_url hjar env.cookieMatch url source
        simp [hn]
      · simp [hside]
  | Cancel res_id =>
    cases hl : st.cancel_load_map.lookup res_id with
    | none =>
      simp only [process_msg, hl, Except.ok.injEq, Prod.mk.injEq] at hok
      obtain ⟨h1, h2, h3⟩ := hok
      subst h1 h2
      rw [getGroup_set_cancel]
      exact ⟨hjar, by simp⟩
    | some ch =>
      simp only [process_msg, hl, Except.ok.injEq, Prod.mk.injEq] at hok
      obtain ⟨h1, h2, h3⟩ := hok
      subst h1 h2
      rw [getGroup_set_cancel]
      exact ⟨hjar, by intro ev hev; simp at hev; subst hev; rfl⟩
  | Synchronize sender =>
    simp only [process_msg, Except.ok.injEq, Prod.mk.injEq] at hok
    obtain ⟨h1, h2, h3⟩ := hok
    subst h1 h2
    exact ⟨hjar, by intro ev hev; simp at hev; subst hev; rfl⟩
  | ToFileManager m =>
    simp only [process_msg, Except.ok.injEq, Prod.mk.injEq] at hok
    obtain ⟨h1, h2, h3⟩ := hok
    subst h1 h2
    exact ⟨hjar, by intro ev hev; simp at hev; subst hev; rfl⟩
  | Exit sender =>
    cases hcd : st.config_dir with
    | none =>
      simp only [process_msg, hcd, Except.ok.injEq, Prod.mk.injEq] at hok
      obtain ⟨h1, h2, h3⟩ := hok
      subst h1 h2
      exact ⟨hjar, by intro ev hev; simp at hev; subst hev; rfl⟩
    | some dir =>
      cases hp : persist_group env (getGroup side2 st) st.fs with
      | error e => simp [process_msg, hcd, hp] at hok
      | ok fs =>
        simp only [process_msg, hcd, hp, Except.ok.injEq, Prod.mk.injEq] at hok
        obtain ⟨h1, h2, h3⟩ := hok
        subst h1 h2
        refine ⟨?_, by intro ev hev; simp at hev; subst hev; rfl⟩
        cases side <;> simpa [getGroup] using hjar

/-- One loop iteration preserves the isolation invariant. -/
theorem runStep_iso (env : Env) (side : ChanSide) (c : Cookie) (ls : LoopState)
    (item : InItem)
    (hjar : c ∉ (getGroup side ls.st).cookie_jar.cookies)
    (hev : ∀ ev ∈ ls.events, replyClean side c ev = true)
    (hacc : item.1 = side → c ∉ acceptedOfItem env item) :
    c ∉ (getGroup side (runStep env ls item).st).cookie_jar.cookies
    ∧ ∀ ev ∈ (runStep env ls item).events, replyClean side c ev = true := by
  obtain ⟨side2, omsg⟩ := item
  cases hst : ls.status with
  | stopped =>
    have he : runStep env ls (side2, omsg) = ls := by
      unfold runStep
      rw [hst]
    rw [he]
    exact ⟨hjar, hev⟩
  | panicked why =>
    have he : runStep env ls (side2, omsg) = ls := by
      unfold runStep
      rw [hst]
    rw [he]
    exact ⟨hjar, hev⟩
  | running =>
    cases omsg with
    | none =>
      have he : runStep env ls (side2, none) = ls := by
        simp [runStep, hst]
      rw [he]
      exact ⟨hjar, hev⟩
    | some msg =>
      cases hok : process_msg env ls.st side2 msg with
      | error why =>
        have he : runStep env ls (side2, some msg) = { ls with status := .panicked why } := by
          simp [runStep, hst, hok]
        rw [he]
        exact ⟨hjar, hev⟩
      | ok out =>
        obtain ⟨st2, evs, cont⟩ := out
        have he : runStep env ls (side2, some msg)
            = { st := st2, events := ls.events ++ evs,
                status := if cont then .running else .stopped } := by
          simp [runStep, hst, hok]
        rw [he]
        have hiso := process_msg_iso env side side2 c ls.st st2 evs cont msg hok hjar
          (fun hs => by simpa [acceptedOfItem] using hacc hs)
        refine ⟨hiso.1, ?_⟩
        intro ev hevm
        rcases List.mem_append.1 hevm with h | h
        · exact hev ev h
        · exact hiso.2 ev h

/-- The isolation invariant holds along every trace. -/
theorem runTrace_iso (env : Env) (side : ChanSide) (c : Cookie)
    (items : List InItem) (ls : LoopState)
    (hjar : c ∉ (getGroup side ls.st).cookie_jar.cookies)
    (hev : ∀ ev ∈ ls.events, replyClean side c ev = true)
    (hacc : ∀ it ∈ items, it.1 = side → c ∉ acceptedOfItem env it) :
    c ∉ (getGroup side (runTrace env ls items).st).cookie_jar.cookies
    ∧ ∀ ev ∈ (runTrace env ls items).events, replyClean side c ev = true := by
  induction items generalizing ls with
  | nil => exact ⟨hjar, hev⟩
  | cons it rest ih =>
    have hstep := runStep_iso env side c ls it hjar hev
      (fun hs => hacc it (List.mem_cons_self it rest) hs)
    exact ih (runStep env ls it) hstep.1 hstep.2
      (fun it2 hm hs => hacc it2 (List.mem_cons_of_mem it hm) hs)

/-- C2: the public and private groups are fully isolated.  For every
environment, config directory and inbound sequence, a cookie that is not in
`side`'s jar at startup and that no message arriving on `side`'s own channel
inserts — in particular any cookie set only through the other channel — never
ends up in `side`'s cookie jar and is never contained in any
`GetCookiesForUrl`/`GetCookiesDataForUrl` reply sent on `side`'s channel.
Instantiating `side := pub` gives "a cookie set through the private channel is
never returned on the public channel"; `side := priv` gives the converse. -/
theorem cookie_isolation (env : Env) (config_dir : Option String) (ls0 : LoopState)
    (items : List InItem) (side : ChanSide) (c : Cookie)
    (h0 : initLoopState env config_dir = .ok ls0)
    (hjar : c ∉ (getGroup side ls0.st).cookie_jar.cookies)
    (hacc : ∀ it ∈ items, it.1 = side → c ∉ acceptedOfItem env it) :
    c ∉ (getGroup side (runTrace env ls0 items).st).cookie_jar.cookies
    ∧ ∀ ev ∈ (runTrace env ls0 items).events, replyClean side c ev = true := by
  have hev : ∀ ev ∈ ls0.events, replyClean side c ev = true := by
    unfold initLoopState at h0
    cases hc : create_resource_groups env config_dir with
    | error e => rw [hc] at h0; exact absurd h0 (by simp)
    | ok p =>
      obtain ⟨pubG, privG⟩ := p
      rw [hc] at h0
      simp only [Except.ok.injEq] at h0
      subst h0
      intro ev hevm
      simp at hevm
  exact runTrace_iso env side c items ls0 hjar hev hacc

/-- An environment where every peer is connected and parsing/validation accept
everything (the raw header is taken as a single cookie). -/
def envIso : Env :=
  { envDisc with
    connected := fun _ => true,
    new_wrapped := fun ck _ _ => some ck,
    parse_header := fun s => some [s] }

/-- A trace setting a cookie through the private channel and then querying on
the public channel. -/
def isoTrace : List InItem :=
  [(.priv, some (.SetCookiesForUrlWithData "https://a.test/" "secret" .HTTP)),
   (.pub, some (.GetCookiesForUrl "https://a.test/" 3 .HTTP))]

/-- Witness for C2: after a private-channel cookie set, the public jar stays
clean and the public reply does not contain the cookie. -/
theorem cookie_isolation_witness :
    "secret" ∉ (getGroup .pub (runTrace envIso ⟨st0, [], .running⟩ isoTrace).st).cookie_jar.cookies
    ∧ ∀ ev ∈ (runTrace envIso ⟨st0, [], .running⟩ isoTrace).events,
        replyClean .pub "secret" ev = true :=
  cookie_isolation envIso none ⟨st0, [], .running⟩ isoTrace .pub "secret" rfl
    (by decide) (by decide)

end Servo
